import Mathlib

/-
Verification of the news-browsing page in `src/main.py` (Streamlit single-page
app).  The Python source is shallowly embedded below:

* An `Article` is one row of the `news_articles_four` table; every field other
  than `id` is nullable and is modelled as `Option String`.  SQL `NULL` arrives
  in the pandas object columns as Python `None` (falsy), modelled as `none`.
* External library calls (`mysql` store access, `base64.b64decode`,
  `PIL.Image.open`) are modelled as oracle parameters; a raised exception is an
  `Except.error` / a failing `StoreOutcome`.
* `st.error` / `st.warning` calls are modelled as boolean "reported" flags on
  the result records; `st.stop` as an early-return page outcome.
* `Series.str.contains(q, case=False, na=False)` compiles `q` as a
  case-insensitive regular expression (pandas default `regex=True`) and
  raises `re.error` on an invalid pattern.  The regex engine is external
  library code, so the faithful pipeline embedding `filtered_df_re` takes it
  as an oracle parameter `reSearch : String → Except String (String → Bool)`
  (compile-and-search as one unit; `Except.error` is the raising path, which
  propagates out of the filter — lines 164-179 have no try/except);
  `na=False` makes null cells never match.  `strContainsCI` is the
  case-insensitive *literal substring* semantics named by the spec, declared
  for comparison with the engine: the two agree exactly on patterns the
  engine treats literally (no regex metacharacters), and `litRe` /
  `filtered_df` are the engine and pipeline specialised to that literal
  case.  `pyReModel` fixes the engine's documented behaviour at the two
  metacharacter patterns the counterexamples evaluate.  Case mapping is
  modelled on ASCII (`Char.toLower`); Malayalam text has no case
  distinction.
-/

namespace News

/-- One row of the `news_articles_four` table as selected by `fetch_news`
(`src/main.py` lines 51-57).  All fields other than `id` are nullable. -/
structure Article where
  id : Nat
  cleaned_title : Option String
  malayalam_title : Option String
  date : Option String
  tag : Option String
  image_data : Option String
  cleaned_description : Option String
  malayalam_description : Option String
deriving Repr, DecidableEq

/-- The display language held in `st.session_state.language`
(`"english"` / `"malayalam"`). -/
inductive Lang where
  | english
  | malayalam
deriving Repr, DecidableEq

/-- Outcome of one interaction with the MySQL store during one loop iteration
of `fetch_news`: the connection attempt raises (`get_connection` catches the
error, reports it via `st.error` and returns `None`), the query raises a
`mysql.connector.Error`, or the query succeeds with a list of rows. -/
inductive StoreOutcome where
  | connFail
  | queryFail
  | ok (rows : List Article)
deriving Repr, DecidableEq

/-- Observable result of a call to `fetch_news`: the returned rows (an empty
DataFrame is `[]`), how many loop iterations (fetch attempts) ran, how many
`time.sleep(1)` backoffs happened, and whether an error was reported to the
user via `st.error` (by `get_connection` or by `fetch_news` itself). -/
structure FetchResult where
  rows : List Article
  attempts : Nat
  sleeps : Nat
  errorReported : Bool
deriving Repr, DecidableEq

/-- `max_retries = 3` in `fetch_news` (`src/main.py` line 43). -/
def max_retries : Nat := 3

/-- The retry loop `for attempt in range(max_retries)` of `fetch_news`
(`src/main.py` lines 44-68), with `fuel` the number of remaining iterations
(initially `max_retries`, so `attempt + fuel = max_retries` throughout).
If `get_connection` returns `None` the function returns an empty DataFrame at
once (line 47-48, no retry; the connection error was already reported).  If the
query raises, the last attempt reports the failure and returns an empty
DataFrame (lines 64-67); earlier attempts sleep and retry (line 68).  The
`fuel = 0` case corresponds to the loop running out, which cannot happen since
the last iteration always returns. -/
def fetch_attempt (store : Nat → StoreOutcome) : Nat → Nat → Nat → FetchResult
  | 0, attempt, sleeps =>
      { rows := [], attempts := attempt, sleeps := sleeps, errorReported := false }
  | fuel + 1, attempt, sleeps =>
      match store attempt with
      | .connFail =>
          { rows := [], attempts := attempt + 1, sleeps := sleeps, errorReported := true }
      | .ok rows =>
          { rows := rows, attempts := attempt + 1, sleeps := sleeps, errorReported := false }
      | .queryFail =>
          if attempt = max_retries - 1 then
            { rows := [], attempts := attempt + 1, sleeps := sleeps, errorReported := true }
          else
            fetch_attempt store fuel (attempt + 1) (sleeps + 1)

/-- `fetch_news()` (`src/main.py` lines 41-68), parameterised by the store's
behaviour on each attempt. -/
def fetch_news (store : Nat → StoreOutcome) : FetchResult :=
  fetch_attempt store max_retries 0 0

/-- Observable result of `decode_image`: the decoded image (`None` → `none`)
and whether `st.error` was called (the `except` branch, line 100-102). -/
structure DecodeOutcome where
  image : Option Nat
  errorReported : Bool
deriving Repr, DecidableEq

/-- `decode_image(base64_str)` (`src/main.py` lines 93-102).  The external
calls `base64.b64decode` and `Image.open(io.BytesIO(...))` are oracle
parameters `b64decode` and `imageOpen`; decoded byte strings are `List Nat`,
decoded images are abstract handles (`Nat`).  `not base64_str or
pd.isna(base64_str)` is: the input is absent/null (`none`) or the empty
string.  Any raising step lands in the `except` branch, which reports the
error and returns `None`. -/
def decode_image (b64decode : String → Except String (List Nat))
    (imageOpen : List Nat → Except String Nat) (input : Option String) : DecodeOutcome :=
  match input with
  | none => { image := none, errorReported := false }
  | some s =>
      if s = "" then { image := none, errorReported := false }
      else
        match b64decode s with
        | .error _ => { image := none, errorReported := true }
        | .ok bytes =>
            match imageOpen bytes with
            | .error _ => { image := none, errorReported := true }
            | .ok img => { image := some img, errorReported := false }

/-- `safe_display_text(text, default)` (`src/main.py` lines 107-110):
null/absent or empty text is replaced by the default placeholder. -/
def safe_display_text (text : Option String) (default : String) : String :=
  match text with
  | none => default
  | some s => if s = "" then default else s

/-- Case-insensitive character mapping used to model `case=False`
(ASCII case folding; Malayalam has no case). -/
def lowerChars (s : String) : List Char :=
  s.toList.map Char.toLower

/-- Is `needle` a prefix of `hay` (character lists)? -/
def charsPre : List Char → List Char → Bool
  | [], _ => true
  | _ :: _, [] => false
  | a :: as, b :: bs => a == b && charsPre as bs

/-- Does `hay` contain `needle` as a contiguous substring? -/
def charsContains (needle : List Char) : List Char → Bool
  | [] => charsPre needle []
  | c :: t => charsPre needle (c :: t) || charsContains needle t

/-- Case-insensitive *literal substring* test — the matching semantics the
spec ascribes to the text filter ("case-insensitive substring match"),
declared to be compared with the regex engine's behaviour.  It agrees with
`Series.str.contains(needle, case=False)` on a non-null cell exactly when
the engine treats the pattern literally (no regex metacharacters); see
`pyReModel` and the C2 counterexample for a pattern where the two differ. -/
def strContainsCI (hay needle : String) : Bool :=
  charsContains (lowerChars needle) (lowerChars hay)

/-- The literal-substring cell test with `na=False`: a null cell never
matches (`optMatch` specialised to the literal matcher). -/
def optContainsCI (q : String) : Option String → Bool
  | none => false
  | some s => strContainsCI s q

/-- One cell under the engine's compiled matcher `m`, with `na=False`:
a null cell never matches. -/
def optMatch (m : String → Bool) : Option String → Bool
  | none => false
  | some s => m s

/-- The text-filter predicate of `src/main.py` lines 166-176 with the
engine's compiled case-insensitive matcher `m`: the query is matched against
title OR description of the currently selected language only. -/
def textMatchM (m : String → Bool) (lang : Lang) (a : Article) : Bool :=
  match lang with
  | .english => optMatch m a.cleaned_title || optMatch m a.cleaned_description
  | .malayalam => optMatch m a.malayalam_title || optMatch m a.malayalam_description

/-- The text-filter predicate specialised to the literal-substring matcher
(`textMatchM` with the literal engine's matcher for `q`). -/
def textMatch (lang : Lang) (q : String) (a : Article) : Bool :=
  match lang with
  | .english => optContainsCI q a.cleaned_title || optContainsCI q a.cleaned_description
  | .malayalam => optContainsCI q a.malayalam_title || optContainsCI q a.malayalam_description

/-- The faithful embedding of the filter pipeline building `filtered_df`
(`src/main.py` lines 164-179), with the external regex engine reached
through `Series.str.contains(q, case=False, na=False)` as the oracle
`reSearch` (compile with `re.IGNORECASE` and search, as one unit): start
from a copy of `df`; if `search_query` is truthy (non-empty) hand it to the
engine — an invalid pattern raises `re.error`, which propagates out of the
filter (`Except.error`; there is no try/except around these lines) — and
keep the rows whose active-language title or description the compiled
matcher accepts (null cells never match, `na=False`); then if
`search_tag != "All"` keep the rows whose tag equals the selected tag
(a null tag never equals a string, as in pandas).  The empty query never
consults the engine. -/
def filtered_df_re (reSearch : String → Except String (String → Bool))
    (df : List Article) (lang : Lang) (q tag : String) : Except String (List Article) :=
  if q ≠ "" then
    match reSearch q with
    | .error e => .error e
    | .ok m =>
        let afterText := df.filter (fun a => textMatchM m lang a)
        .ok (if tag ≠ "All" then afterText.filter (fun a => a.tag == some tag) else afterText)
  else
    .ok (if tag ≠ "All" then df.filter (fun a => a.tag == some tag) else df)

/-- The literal-substring engine: the regex engine's documented behaviour on
patterns free of regex metacharacters (every such pattern compiles, and the
compiled case-insensitive search is literal substring search). -/
def litRe (q : String) : Except String (String → Bool) :=
  Except.ok (fun s => strContainsCI s q)

/-- Modelled from the documented behaviour of Python's `re` module (external
library code, not part of this repository's sources), fixed at the two
metacharacter patterns the counterexamples below evaluate it at: the pattern
`"."` compiles, and its case-insensitive search finds a match exactly in
strings holding at least one non-newline character (`.` matches any
character except a newline); the pattern `"("` fails to compile, raising
`re.error` (unterminated subpattern).  Every other pattern is treated
literally here, `re`'s documented behaviour for metacharacter-free
patterns; further metacharacter patterns are outside this model's scope
and are not evaluated by any theorem below. -/
def pyReModel (q : String) : Except String (String → Bool) :=
  if q = "." then Except.ok (fun s => s.toList.any (fun c => c != '\n'))
  else if q = "(" then Except.error "re.error: missing ), unterminated subpattern"
  else Except.ok (fun s => strContainsCI s q)

/-- The filter pipeline specialised to the literal-substring engine: equal
to `filtered_df_re litRe` up to the `Except.ok` wrapper (theorem
`filtered_df_re_lit` below), hence faithful to the program exactly when the
engine is never consulted (empty query) or treats the query literally.  The
theorems stated through it are scoped to those cases. -/
def filtered_df (df : List Article) (lang : Lang) (q tag : String) : List Article :=
  let afterText := if q ≠ "" then df.filter (fun a => textMatch lang q a) else df
  if tag ≠ "All" then afterText.filter (fun a => a.tag == some tag) else afterText

/-- Title field of the active language (spec-side selector used to state the
language-gating property). -/
def selTitle : Lang → Article → Option String
  | .english, a => a.cleaned_title
  | .malayalam, a => a.malayalam_title

/-- Description field of the active language (spec-side selector). -/
def selDesc : Lang → Article → Option String
  | .english, a => a.cleaned_description
  | .malayalam, a => a.malayalam_description

/-- Combined per-row text criterion including the empty-query bypass
(`if search_query:` line 166), under the engine's compiled matcher `m`. -/
def passTextM (m : String → Bool) (q : String) (lang : Lang) (a : Article) : Bool :=
  q == "" || textMatchM m lang a

/-- Combined per-row text criterion including the empty-query bypass
(`if search_query:` line 166), literal-engine specialisation. -/
def passText (lang : Lang) (q : String) (a : Article) : Bool :=
  q == "" || textMatch lang q a

/-- Combined per-row tag criterion including the `"All"` sentinel bypass
(`if search_tag != "All":` line 178). -/
def passTag (tag : String) (a : Article) : Bool :=
  tag == "All" || a.tag == some tag

/-- Accumulator pass behind `pySplit`: scans the characters, collecting the
current word in reverse in `acc`. -/
def wordsAux : List Char → List Char → List String
  | [], acc => if acc.isEmpty then [] else [String.mk acc.reverse]
  | c :: cs, acc =>
      if c.isWhitespace then
        if acc.isEmpty then wordsAux cs []
        else String.mk acc.reverse :: wordsAux cs []
      else wordsAux cs (c :: acc)

/-- Python `str.split()` with no argument (`desc.split()` at line 222): split
on runs of whitespace, discarding empty pieces. -/
def pySplit (s : String) : List String :=
  wordsAux s.toList []

/-- Python `" ".join(ws)` (line 224). -/
def joinSpace : List String → String
  | [] => ""
  | [w] => w
  | w :: ws => w ++ " " ++ joinSpace ws

/-- What the description block of one card shows (`src/main.py` lines
220-231): an info box when `desc` is falsy, the full text when it has at most
100 words, or a 100-word preview ending in `"..."` with the full text behind
the `"Read more"` expander. -/
inductive DescRender where
  | info (msg : String)
  | full (text : String)
  | truncated (preview : String) (fullText : String)
deriving Repr, DecidableEq

/-- The description-preview logic (`src/main.py` lines 220-231). -/
def renderDescription (desc : String) : DescRender :=
  if desc ≠ "" then
    let ws := pySplit desc
    if ws.length > 100 then
      .truncated (joinSpace (ws.take 100) ++ "...") desc
    else
      .full desc
  else
    .info "No description available"

/-- The two-column layout loop (`src/main.py` lines 188-192):
`for i in range(0, len(rows), 2)` renders items `i` and, when it exists,
`i+1` into one row of two columns. -/
def layoutRows {α : Type} : List α → List (List α)
  | [] => []
  | [a] => [[a]]
  | a :: b :: t => [a, b] :: layoutRows t

/-- What the image slot of one card shows (`src/main.py` lines 210-218). -/
inductive ImageOutcome where
  | shown (img : Nat)
  | decodeFailedWarning
  | noImageInfo
deriving Repr, DecidableEq

/-- Image slot of one card together with whether `decode_image` was invoked
and whether it reported a decode error via `st.error`. -/
structure ImageRender where
  outcome : ImageOutcome
  decoderInvoked : Bool
  decodeErrorReported : Bool
deriving Repr, DecidableEq

/-- The image-rendering branch (`src/main.py` lines 210-218):
`if row.get("image_data"):` — a null/absent payload (Python `None`) and the
empty string are falsy, so the info box is shown without calling
`decode_image`; otherwise `decode_image` runs and a `None` result shows the
`"Image not available"` warning. -/
def renderImage (b64decode : String → Except String (List Nat))
    (imageOpen : List Nat → Except String Nat) (payload : Option String) : ImageRender :=
  match payload with
  | none => { outcome := .noImageInfo, decoderInvoked := false, decodeErrorReported := false }
  | some s =>
      if s = "" then
        { outcome := .noImageInfo, decoderInvoked := false, decodeErrorReported := false }
      else
        let d := decode_image b64decode imageOpen (some s)
        match d.image with
        | some img =>
            { outcome := .shown img, decoderInvoked := true, decodeErrorReported := d.errorReported }
        | none =>
            { outcome := .decodeFailedWarning, decoderInvoked := true,
              decodeErrorReported := d.errorReported }

/-- User-visible shape of one page run (`src/main.py` lines 150-192):
whether `fetch_news`/`get_connection` reported a store-level error, whether
the `df.empty` guard showed `"Failed to load news data..."` and stopped
(line 155-157, before the search box and tag dropdown are built), and —
when the page was not stopped — the filtered rows and their two-column
layout. -/
structure PageView where
  fetchErrorReported : Bool
  loadErrorShown : Bool
  searchUIShown : Bool
  filtered : Option (List Article)
  groups : Option (List (List Article))
deriving Repr, DecidableEq

/-- One run of the main portal (`src/main.py` lines 150-192), parameterised
by the store behaviour and the user's filter criteria.  The non-halted
branch filters through the literal-engine pipeline `filtered_df`; the
theorems about `runPage` below concern only the halted branch (`df.empty`),
where no filtering runs at all. -/
def runPage (store : Nat → StoreOutcome) (lang : Lang) (q tag : String) : PageView :=
  let r := fetch_news store
  if r.rows.isEmpty then
    { fetchErrorReported := r.errorReported, loadErrorShown := true, searchUIShown := false,
      filtered := none, groups := none }
  else
    let f := filtered_df r.rows lang q tag
    { fetchErrorReported := r.errorReported, loadErrorShown := false, searchUIShown := true,
      filtered := some f, groups := some (layoutRows f) }

/-- A minimal all-null article, used to instantiate theorems at concrete
inputs. -/
def sampleArticle (n : Nat) : Article :=
  { id := n, cleaned_title := none, malayalam_title := none, date := none, tag := none,
    image_data := none, cleaned_description := none, malayalam_description := none }

/-- Article whose English title contains `"Flu Outbreak"` (the spec's
case-insensitivity example). -/
def fluArticle : Article :=
  { sampleArticle 1 with cleaned_title := some "Flu Outbreak" }

/-- Article tagged `"health"`. -/
def healthArticle : Article :=
  { sampleArticle 2 with tag := some "health" }

/-- Article tagged `"sports"`. -/
def sportsArticle : Article :=
  { sampleArticle 3 with tag := some "sports" }

/-- Article whose English title is the dot-free text `"abc"`. -/
def abcArticle : Article :=
  { sampleArticle 4 with cleaned_title := some "abc" }

/-- A null cell matches no query; a non-null cell matches exactly when its
text contains the query case-insensitively. -/
theorem optContainsCI_eq_true (q : String) (o : Option String) :
    optContainsCI q o = true ↔ ∃ s, o = some s ∧ strContainsCI s q = true := by
  cases o <;> simp [optContainsCI]

/-- Normal form of the filter pipeline: one pass over `df` with the
conjunction of the text criterion (empty-query bypass included) and the tag
criterion (`"All"` bypass included). -/
theorem filtered_df_eq_filter (df : List Article) (lang : Lang) (q tag : String) :
    filtered_df df lang q tag = df.filter (fun a => passText lang q a && passTag tag a) := by
  by_cases hq : q = ""
  · subst hq
    by_cases ht : tag = "All"
    · subst ht
      simp [filtered_df, passText, passTag]
    · have htb : (tag == "All") = false := beq_eq_false_iff_ne.mpr ht
      simp [filtered_df, passText, passTag, ht, htb]
  · have hqb : (q == "") = false := beq_eq_false_iff_ne.mpr hq
    by_cases ht : tag = "All"
    · subst ht
      simp [filtered_df, passText, passTag, hq, hqb]
    · have htb : (tag == "All") = false := beq_eq_false_iff_ne.mpr ht
      rw [filtered_df]
      simp only [if_pos hq, if_pos ht, List.filter_filter]
      exact List.filter_congr fun a _ => by
        simp [passText, passTag, hqb, htb, Bool.and_comm]

/-- A cell under a matcher that is literal for `q` behaves as the literal
cell test. -/
theorem optMatch_lit (m : String → Bool) (q : String) (o : Option String)
    (hlit : ∀ s, m s = strContainsCI s q) :
    optMatch m o = optContainsCI q o := by
  cases o <;> simp [optMatch, optContainsCI, hlit]

/-- The matcher-parameterised text predicate under a literal matcher is the
literal text predicate. -/
theorem textMatchM_lit (m : String → Bool) (q : String) (lang : Lang) (a : Article)
    (hlit : ∀ s, m s = strContainsCI s q) :
    textMatchM m lang a = textMatch lang q a := by
  cases lang <;>
    simp [textMatchM, textMatch, optMatch_lit m q _ hlit]

/-- The empty query never consults the engine: the pipeline is the pure tag
filter. -/
theorem filtered_df_re_empty (reSearch : String → Except String (String → Bool))
    (df : List Article) (lang : Lang) (tag : String) :
    filtered_df_re reSearch df lang "" tag =
      Except.ok (if tag = "All" then df else df.filter (fun a => a.tag == some tag)) := by
  by_cases ht : tag = "All" <;> simp [filtered_df_re, ht]

/-- A query the engine rejects makes the pipeline raise that error. -/
theorem filtered_df_re_error (reSearch : String → Except String (String → Bool))
    (df : List Article) (lang : Lang) (q tag : String) (e : String)
    (hq : q ≠ "") (herr : reSearch q = Except.error e) :
    filtered_df_re reSearch df lang q tag = Except.error e := by
  simp [filtered_df_re, hq, herr]

/-- Engine-success normal form of the faithful pipeline: one conjunctive
filter pass with the compiled matcher. -/
theorem filtered_df_re_normal (reSearch : String → Except String (String → Bool))
    (df : List Article) (lang : Lang) (q tag : String) (m : String → Bool)
    (hok : reSearch q = Except.ok m) :
    filtered_df_re reSearch df lang q tag =
      Except.ok (df.filter (fun a => passTextM m q lang a && passTag tag a)) := by
  by_cases hq : q = ""
  · subst hq
    by_cases ht : tag = "All"
    · subst ht
      simp [filtered_df_re, passTextM, passTag]
    · have htb : (tag == "All") = false := beq_eq_false_iff_ne.mpr ht
      simp [filtered_df_re, passTextM, passTag, ht, htb]
  · have hqb : (q == "") = false := beq_eq_false_iff_ne.mpr hq
    by_cases ht : tag = "All"
    · subst ht
      simp [filtered_df_re, passTextM, passTag, hq, hqb, hok]
    · have htb : (tag == "All") = false := beq_eq_false_iff_ne.mpr ht
      rw [filtered_df_re]
      simp only [if_pos hq, hok, if_pos ht, List.filter_filter]
      exact congrArg Except.ok (List.filter_congr fun a _ => by
        simp [passTextM, passTag, hqb, htb, Bool.and_comm])

/-- On a query the engine treats literally, the faithful pipeline returns
exactly the literal-engine pipeline's output. -/
theorem filtered_df_re_lit (reSearch : String → Except String (String → Bool))
    (df : List Article) (lang : Lang) (q tag : String) (m : String → Bool)
    (hok : reSearch q = Except.ok m) (hlit : ∀ s, m s = strContainsCI s q) :
    filtered_df_re reSearch df lang q tag = Except.ok (filtered_df df lang q tag) := by
  rw [filtered_df_re_normal reSearch df lang q tag m hok, filtered_df_eq_filter]
  exact congrArg Except.ok (List.filter_congr fun a _ => by
    simp [passTextM, passText, textMatchM_lit m q lang a hlit])

/-- Filtering a list again by the same predicate changes nothing. -/
theorem filter_pass_idem (l : List Article) (p : Article → Bool) :
    (l.filter p).filter p = l.filter p := by
  rw [List.filter_filter]
  exact List.filter_congr fun a _ => Bool.and_self _

/-- With a non-empty query, membership in the literal-engine pipeline is
exactly: membership in the input, a case-insensitive literal substring match
of the query on the selected language's title or description only (null
cells never match), and the tag criterion. -/
theorem mem_filtered_df_textMatch (df : List Article) (lang : Lang) (q tag : String)
    (a : Article) (hq : q ≠ "") :
    a ∈ filtered_df df lang q tag ↔
      a ∈ df ∧
        ((∃ s, selTitle lang a = some s ∧ strContainsCI s q = true) ∨
         (∃ s, selDesc lang a = some s ∧ strContainsCI s q = true)) ∧
        passTag tag a = true := by
  have hqb : (q == "") = false := beq_eq_false_iff_ne.mpr hq
  rw [filtered_df_eq_filter, List.mem_filter]
  cases lang <;>
    simp [passText, textMatch, hqb, selTitle, selDesc, optContainsCI_eq_true, and_assoc]

/-- C2 counterexample: with the regex engine's documented behaviour the
query `"."` (which matches any non-newline character) keeps an article whose
English title `"abc"` contains no literal `"."` — its selected-language
fields do not contain the query as a case-insensitive substring
(`textMatch` is `false`), yet the article is included — so the text filter
does not match every query case-insensitively as a substring. -/
theorem C2_substring_counterexample :
    filtered_df_re pyReModel [abcArticle] Lang.english "." "All" =
      Except.ok [abcArticle] ∧
    textMatch Lang.english "." abcArticle = false := by
  constructor
  · rfl
  · decide

/-- C2 (amended): for every article list, selected language, and non-empty
query that the regex engine accepts and treats as literal substring search
(queries free of regex metacharacters), the faithful pipeline returns the
literal-engine output, and an article is in it exactly when it was in the
input, the query occurs case-insensitively as a substring of the title OR
the description of the currently selected language only (an article whose
match-relevant text exists only in the non-selected language's fields is
never included; null/absent fields never match, without an exception), and
the tag criterion holds.  For other queries the match follows the engine's
regex semantics, and a rejected pattern raises past the filter. -/
theorem C2_text_filter_amended (reSearch : String → Except String (String → Bool))
    (m : String → Bool) (df : List Article) (lang : Lang) (q tag : String) (a : Article)
    (hq : q ≠ "") (hok : reSearch q = Except.ok m)
    (hlit : ∀ s, m s = strContainsCI s q) :
    filtered_df_re reSearch df lang q tag = Except.ok (filtered_df df lang q tag) ∧
    (a ∈ filtered_df df lang q tag ↔
      a ∈ df ∧
        ((∃ s, selTitle lang a = some s ∧ strContainsCI s q = true) ∨
         (∃ s, selDesc lang a = some s ∧ strContainsCI s q = true)) ∧
        passTag tag a = true) :=
  ⟨filtered_df_re_lit reSearch df lang q tag m hok hlit,
   mem_filtered_df_textMatch df lang q tag a hq⟩

/-- Witness for C2 (amended): the literal query `"flu"` matches the
English-only title `"Flu Outbreak"` while English is active, through the
faithful pipeline with a literal engine. -/
theorem C2_text_filter_amended_witness :
    filtered_df_re litRe [fluArticle] Lang.english "flu" "All" =
      Except.ok (filtered_df [fluArticle] Lang.english "flu" "All") ∧
    fluArticle ∈ filtered_df [fluArticle] Lang.english "flu" "All" := by
  have h := C2_text_filter_amended litRe (fun s => strContainsCI s "flu")
    [fluArticle] Lang.english "flu" "All" fluArticle (by decide) rfl (fun _ => rfl)
  exact ⟨h.1, h.2.mpr ⟨List.mem_singleton_self fluArticle,
    Or.inl ⟨"Flu Outbreak", rfl, by decide⟩, by decide⟩⟩

/-- C4 counterexample: at the query `"("` the regex engine raises
(`re.error`, unterminated subpattern); the exception propagates out of the
filter and no output sequence is produced, so the output is not an ordered
subsequence of the input for that criteria tuple. -/
theorem C4_raises_counterexample :
    filtered_df_re pyReModel [sampleArticle 1] Lang.english "(" "All" =
      Except.error "re.error: missing ), unterminated subpattern" := by
  rfl

/-- C4 (amended): for every input sequence and criteria tuple whose query is
empty (bypassing the text filter and the engine entirely) or accepted by the
regex engine, the text and tag filters are conjunctive and every produced
output is an ordered subsequence of the input preserving relative order;
when the engine rejects the query (invalid regex pattern) the exception
propagates and the filter produces no output. -/
theorem C4_conjunctive_amended (reSearch : String → Except String (String → Bool))
    (df : List Article) (lang : Lang) (q tag : String) :
    (q = "" →
        filtered_df_re reSearch df lang q tag =
          Except.ok (if tag = "All" then df
            else df.filter (fun a => a.tag == some tag))) ∧
    (∀ m, reSearch q = Except.ok m →
        filtered_df_re reSearch df lang q tag =
          Except.ok (df.filter (fun a => passTextM m q lang a && passTag tag a))) ∧
    (∀ out, filtered_df_re reSearch df lang q tag = Except.ok out →
        List.Sublist out df) ∧
    (∀ e, q ≠ "" → reSearch q = Except.error e →
        filtered_df_re reSearch df lang q tag = Except.error e) := by
  refine ⟨?_, ?_, ?_, ?_⟩
  · rintro rfl
    exact filtered_df_re_empty reSearch df lang tag
  · intro m hok
    exact filtered_df_re_normal reSearch df lang q tag m hok
  · intro out hout
    by_cases hq : q = ""
    · subst hq
      rw [filtered_df_re_empty] at hout
      have h2 := Except.ok.inj hout
      subst h2
      by_cases ht : tag = "All"
      · rw [if_pos ht]
      · rw [if_neg ht]
        exact List.filter_sublist df
    · cases hre : reSearch q with
      | error e =>
          rw [filtered_df_re_error reSearch df lang q tag e hq hre] at hout
          simp at hout
      | ok m =>
          rw [filtered_df_re_normal reSearch df lang q tag m hre] at hout
          have h2 := Except.ok.inj hout
          subst h2
          exact List.filter_sublist df
  · intro e hq herr
    exact filtered_df_re_error reSearch df lang q tag e hq herr

/-- Witness for C4 (amended): an empty query with a selected tag yields the
pure tag filter's output, and the invalid pattern `"("` raises. -/
theorem C4_conjunctive_amended_witness :
    filtered_df_re pyReModel [healthArticle, sportsArticle] Lang.english "" "sports" =
      Except.ok [sportsArticle] ∧
    filtered_df_re pyReModel [healthArticle, sportsArticle] Lang.english "(" "All" =
      Except.error "re.error: missing ), unterminated subpattern" := by
  constructor
  · have h := (C4_conjunctive_amended pyReModel [healthArticle, sportsArticle]
      Lang.english "" "sports").1 rfl
    rw [h]
    rfl
  · exact (C4_conjunctive_amended pyReModel [healthArticle, sportsArticle]
      Lang.english "(" "All").2.2.2 "re.error: missing ), unterminated subpattern"
      (by decide) rfl

/-- C8 counterexample: at the invalid-regex query `"("` the first filter
invocation raises instead of producing an output sequence, so invoking the
filter twice does not yield identical output sequences for every input and
criteria tuple. -/
theorem C8_raises_counterexample :
    filtered_df_re pyReModel [sportsArticle] Lang.english "(" "All" =
      Except.error "re.error: missing ), unterminated subpattern" := by
  rfl

/-- C8 (amended): filtering is deterministic (the pipeline is a pure
function of its inputs) and idempotent whenever it produces an output: for
every input sequence, engine, and criteria tuple whose query the engine
accepts or is empty, invoking the filter again on its own output with the
same criteria returns that output unchanged in membership and order; for a
query the engine rejects, the invocation raises and produces no output
sequence. -/
theorem C8_filter_idempotent_amended (reSearch : String → Except String (String → Bool))
    (df : List Article) (lang : Lang) (q tag : String) :
    ∀ out, filtered_df_re reSearch df lang q tag = Except.ok out →
      filtered_df_re reSearch out lang q tag = Except.ok out := by
  intro out hout
  by_cases hq : q = ""
  · subst hq
    rw [filtered_df_re_empty] at hout
    have h2 := Except.ok.inj hout
    subst h2
    rw [filtered_df_re_empty]
    by_cases ht : tag = "All"
    · simp only [if_pos ht]
    · simp only [if_neg ht]
      exact congrArg Except.ok (filter_pass_idem df _)
  · cases hre : reSearch q with
    | error e =>
        rw [filtered_df_re_error reSearch df lang q tag e hq hre] at hout
        simp at hout
    | ok m =>
        rw [filtered_df_re_normal reSearch df lang q tag m hre] at hout
        have h2 := Except.ok.inj hout
        subst h2
        rw [filtered_df_re_normal reSearch _ lang q tag m hre]
        exact congrArg Except.ok (filter_pass_idem df _)

/-- Witness for C8 (amended): re-filtering the output `[fluArticle]` of a
successful literal-engine run with the same criteria returns it unchanged. -/
theorem C8_filter_idempotent_amended_witness :
    filtered_df_re litRe [fluArticle] Lang.english "flu" "All" =
      Except.ok [fluArticle] :=
  C8_filter_idempotent_amended litRe [fluArticle, sampleArticle 9] Lang.english "flu" "All"
    [fluArticle] rfl

/-- C3: with the text filter bypassed by the empty query, a non-sentinel tag
selection keeps exactly the articles whose tag field equals the selected tag
(a null tag equals no selection), and the `"All"` sentinel returns the input
unfiltered. -/
theorem C3_tag_filter_exact (df : List Article) (lang : Lang) (tag : String)
    (h : tag ≠ "All") :
    (∀ a, a ∈ filtered_df df lang "" tag ↔ a ∈ df ∧ a.tag = some tag) ∧
    filtered_df df lang "" "All" = df := by
  constructor
  · intro a
    have htb : (tag == "All") = false := beq_eq_false_iff_ne.mpr h
    rw [filtered_df_eq_filter, List.mem_filter]
    simp [passText, passTag, htb]
  · simp [filtered_df]

/-- Witness for C3: selecting `"health"` keeps the health-tagged article and
drops the sports-tagged and untagged ones; selecting `"All"` returns the
input unchanged. -/
theorem C3_tag_filter_exact_witness :
    (healthArticle ∈ filtered_df [healthArticle, sportsArticle, sampleArticle 7]
        .english "" "health") ∧
    (sportsArticle ∉ filtered_df [healthArticle, sportsArticle, sampleArticle 7]
        .english "" "health") ∧
    filtered_df [healthArticle, sportsArticle] .english "" "All" =
      [healthArticle, sportsArticle] := by
  have h := C3_tag_filter_exact [healthArticle, sportsArticle, sampleArticle 7]
    .english "health" (by decide)
  refine ⟨(h.1 healthArticle).mpr ⟨by decide, rfl⟩, ?_, ?_⟩
  · intro hmem
    have := (h.1 sportsArticle).mp hmem
    exact absurd this.2 (by decide)
  · exact (C3_tag_filter_exact [healthArticle, sportsArticle] .english "health"
      (by decide)).2

/-- C5: for every rendered description (the renderer only ever receives a
non-empty string, `safe_display_text` having substituted a placeholder for
null/empty fields): when its whitespace-delimited word count exceeds 100 the
visible preview is exactly the first 100 words joined by spaces and followed
by an ellipsis, with the full untruncated text available only behind the
expander; when the word count is at most 100 (including exactly 100) the
description is rendered in full with no expand control. -/
theorem C5_description_truncation (desc : String) (hne : desc ≠ "") :
    (100 < (pySplit desc).length →
        renderDescription desc =
          .truncated (joinSpace ((pySplit desc).take 100) ++ "...") desc) ∧
    ((pySplit desc).length ≤ 100 →
        renderDescription desc = .full desc) := by
  constructor
  · intro h
    simp [renderDescription, hne, h]
  · intro h
    simp [renderDescription, hne, Nat.not_lt.mpr h]

set_option maxRecDepth 100000 in
/-- Witness for C5: a 101-word description is truncated to its first 100
words plus an ellipsis with the full text behind the expander; a two-word
description is rendered in full with no expander. -/
theorem C5_description_truncation_witness :
    renderDescription (joinSpace (List.replicate 101 "w")) =
      .truncated (joinSpace ((pySplit (joinSpace (List.replicate 101 "w"))).take 100) ++ "...")
        (joinSpace (List.replicate 101 "w")) ∧
    renderDescription "short desc" = .full "short desc" := by
  constructor
  · exact (C5_description_truncation (joinSpace (List.replicate 101 "w"))
      (by decide)).1 (by decide)
  · exact (C5_description_truncation "short desc" (by decide)).2 (by decide)

/-- Concatenating the groups produced by the layout loop restores the
filtered sequence: nothing is dropped, duplicated or re-ordered. -/
theorem layoutRows_flatten {α : Type} : ∀ l : List α, (layoutRows l).flatten = l
  | [] => rfl
  | [_] => rfl
  | a :: b :: t => by simp [layoutRows, layoutRows_flatten t]

/-- Every group produced by the layout loop has one or two items. -/
theorem layoutRows_sizes {α : Type} :
    ∀ l : List α, ∀ g ∈ layoutRows l, g.length = 2 ∨ g.length = 1
  | [] => by simp [layoutRows]
  | [a] => by simp [layoutRows]
  | a :: b :: t => by
      intro g hg
      have he : layoutRows (a :: b :: t) = [a, b] :: layoutRows t := rfl
      rw [he] at hg
      rcases List.mem_cons.mp hg with h | h
      · subst h; left; rfl
      · exact layoutRows_sizes t g h

/-- Every group other than the last has exactly two items. -/
theorem layoutRows_dropLast {α : Type} :
    ∀ l : List α, ∀ g ∈ (layoutRows l).dropLast, g.length = 2
  | [] => by simp [layoutRows]
  | [a] => by simp [layoutRows]
  | a :: b :: t => by
      intro g hg
      have he : layoutRows (a :: b :: t) = [a, b] :: layoutRows t := rfl
      rw [he] at hg
      cases hL : layoutRows t with
      | nil => rw [hL] at hg; simp at hg
      | cons x xs =>
          rw [hL, List.dropLast_cons₂] at hg
          rcases List.mem_cons.mp hg with h | h
          · subst h; rfl
          · exact layoutRows_dropLast t g (by rw [hL]; exact h)

/-- When the filtered sequence has even length every group has exactly two
items. -/
theorem layoutRows_even {α : Type} :
    ∀ l : List α, l.length % 2 = 0 → ∀ g ∈ layoutRows l, g.length = 2
  | [] => by simp [layoutRows]
  | [a] => by intro h; simp at h
  | a :: b :: t => by
      intro h g hg
      have ht : t.length % 2 = 0 := by
        simp [List.length_cons] at h
        omega
      have he : layoutRows (a :: b :: t) = [a, b] :: layoutRows t := rfl
      rw [he] at hg
      rcases List.mem_cons.mp hg with h' | h'
      · subst h'; rfl
      · exact layoutRows_even t ht g h'

/-- C7: the renderer lays the filtered articles out in groups of 2 in the
original order — flattening the groups restores the input exactly (no
re-sorting, no loss), every group has 2 items except that the last may have
1, and when the input length is even every group has exactly 2 items. -/
theorem C7_two_column_layout (rows : List Article) :
    (layoutRows rows).flatten = rows ∧
    (∀ g ∈ layoutRows rows, g.length = 2 ∨ g.length = 1) ∧
    (∀ g ∈ (layoutRows rows).dropLast, g.length = 2) ∧
    (rows.length % 2 = 0 → ∀ g ∈ layoutRows rows, g.length = 2) :=
  ⟨layoutRows_flatten rows, layoutRows_sizes rows, layoutRows_dropLast rows,
   fun h => layoutRows_even rows h⟩

/-- Witness for C7 at a concrete odd-length input: three articles are laid
out as a pair and a final singleton, and flattening restores the input. -/
theorem C7_two_column_layout_witness :
    (layoutRows [sampleArticle 1, sampleArticle 2, sampleArticle 3]).flatten =
      [sampleArticle 1, sampleArticle 2, sampleArticle 3] :=
  (C7_two_column_layout [sampleArticle 1, sampleArticle 2, sampleArticle 3]).1

/-- One unrolling step of the `fetch_news` retry loop. -/
theorem fetch_attempt_succ (store : Nat → StoreOutcome) (fuel attempt sleeps : Nat) :
    fetch_attempt store (fuel + 1) attempt sleeps =
      match store attempt with
      | .connFail =>
          { rows := [], attempts := attempt + 1, sleeps := sleeps, errorReported := true }
      | .ok rows =>
          { rows := rows, attempts := attempt + 1, sleeps := sleeps, errorReported := false }
      | .queryFail =>
          if attempt = max_retries - 1 then
            { rows := [], attempts := attempt + 1, sleeps := sleeps, errorReported := true }
          else fetch_attempt store fuel (attempt + 1) (sleeps + 1) := rfl

/-- C1 counterexample: a store that is unreachable on every attempt (the
connection itself raises, so `get_connection` reports the error and returns
`None`) makes `fetch_news` return an empty result with a reported failure
after a single fetch attempt — not after 3 attempts as the claim states. -/
theorem C1_retry_counterexample :
    fetch_news (fun _ => StoreOutcome.connFail) =
      { rows := [], attempts := 1, sleeps := 0, errorReported := true } ∧
    (1 : Nat) ≠ 3 :=
  ⟨rfl, by decide⟩

/-- C1 (amended): if the query raises a store error on every attempt,
`fetch_news` makes exactly 3 fetch attempts with a backoff sleep between
consecutive attempts (2 sleeps) and then yields an empty result with a
reported failure; if instead the connection attempt fails, it yields an
empty result with the failure already reported after a single attempt,
without retrying; in every case it terminates with at most 3 attempts. -/
theorem C1_retry_bound_amended (store : Nat → StoreOutcome) :
    ((∀ n, n < max_retries → store n = StoreOutcome.queryFail) →
        fetch_news store =
          { rows := [], attempts := 3, sleeps := 2, errorReported := true }) ∧
    (store 0 = StoreOutcome.connFail →
        fetch_news store =
          { rows := [], attempts := 1, sleeps := 0, errorReported := true }) ∧
    (fetch_news store).attempts ≤ max_retries := by
  have e3 : fetch_news store = fetch_attempt store (2 + 1) 0 0 := rfl
  refine ⟨?_, ?_, ?_⟩
  · intro h
    have h0 := h 0 (by decide)
    have h1 := h 1 (by decide)
    have h2 := h 2 (by decide)
    rw [e3, fetch_attempt_succ, h0]
    simp only [max_retries]
    norm_num [max_retries]
    show fetch_attempt store (1 + 1) 1 1 = _
    rw [fetch_attempt_succ, h1]
    norm_num [max_retries]
    show fetch_attempt store (0 + 1) 2 2 = _
    rw [fetch_attempt_succ, h2]
    norm_num [max_retries]
  · intro h0
    rw [e3, fetch_attempt_succ, h0]
  · rw [e3, fetch_attempt_succ]
    cases h0 : store 0 with
    | connFail => simp [max_retries]
    | ok rows => simp [max_retries]
    | queryFail =>
        simp only [max_retries]
        norm_num [max_retries]
        show (fetch_attempt store (1 + 1) 1 1).attempts ≤ 3
        rw [fetch_attempt_succ]
        cases h1 : store 1 with
        | connFail => simp
        | ok rows => simp
        | queryFail =>
            norm_num [max_retries]
            show (fetch_attempt store (0 + 1) 2 2).attempts ≤ 3
            rw [fetch_attempt_succ]
            cases h2 : store 2 with
            | connFail => simp
            | ok rows => simp
            | queryFail => norm_num [max_retries]

/-- Witness for C1 (amended): with the query raising on all 3 attempts the
result is empty with exactly 3 attempts and 2 backoff sleeps; with the
connection failing, a single attempt. -/
theorem C1_retry_bound_amended_witness :
    fetch_news (fun _ => StoreOutcome.queryFail) =
      { rows := [], attempts := 3, sleeps := 2, errorReported := true } :=
  (C1_retry_bound_amended (fun _ => StoreOutcome.queryFail)).1 (fun _ _ => rfl)

/-- C6: `decode_image` never raises past its boundary: it is a total
function; an absent (null) or empty input yields `None` with no error
reported, and a failing base64 decode or a byte string that does not parse
as an image yields `None` with a reported decode failure. -/
theorem C6_decode_never_raises (b64decode : String → Except String (List Nat))
    (imageOpen : List Nat → Except String Nat) (input : Option String) :
    ((input = none ∨ input = some "") →
        decode_image b64decode imageOpen input = { image := none, errorReported := false }) ∧
    (∀ s e, input = some s → b64decode s = Except.error e →
        decode_image b64decode imageOpen input =
          (if s = "" then { image := none, errorReported := false }
           else { image := none, errorReported := true })) ∧
    (∀ s bytes e, input = some s → s ≠ "" → b64decode s = Except.ok bytes →
        imageOpen bytes = Except.error e →
        decode_image b64decode imageOpen input = { image := none, errorReported := true }) := by
  refine ⟨?_, ?_, ?_⟩
  · rintro (rfl | rfl) <;> simp [decode_image]
  · rintro s e rfl hb
    by_cases hs : s = ""
    · simp [decode_image, hs]
    · simp [decode_image, hs, hb]
  · rintro s bytes e rfl hs hb hi
    simp [decode_image, hs, hb, hi]

/-- Witness for C6: with a base64 decoder that always fails, a null input
and an empty input yield `None` silently, a non-empty input yields `None`
with a reported failure; with a succeeding decoder but an image parser that
rejects the bytes, the result is `None` with a reported failure. -/
theorem C6_decode_never_raises_witness :
    decode_image (fun _ => Except.error "bad") (fun _ => Except.error "bad") none =
      { image := none, errorReported := false } ∧
    decode_image (fun _ => Except.error "bad") (fun _ => Except.error "bad") (some "") =
      { image := none, errorReported := false } ∧
    decode_image (fun _ => Except.error "bad") (fun _ => Except.error "bad") (some "zz") =
      { image := none, errorReported := true } ∧
    decode_image (fun _ => Except.ok [1, 2]) (fun _ => Except.error "not an image")
        (some "zz") =
      { image := none, errorReported := true } := by
  refine ⟨?_, ?_, ?_, ?_⟩
  · exact (C6_decode_never_raises (fun _ => Except.error "bad")
      (fun _ => Except.error "bad") none).1 (Or.inl rfl)
  · exact (C6_decode_never_raises (fun _ => Except.error "bad")
      (fun _ => Except.error "bad") (some "")).1 (Or.inr rfl)
  · have := (C6_decode_never_raises (fun _ => Except.error "bad")
      (fun _ => Except.error "bad") (some "zz")).2.1 "zz" "bad" rfl rfl
    simpa using this
  · exact (C6_decode_never_raises (fun _ => Except.ok [1, 2])
      (fun _ => Except.error "not an image") (some "zz")).2.2 "zz" [1, 2] "not an image"
      rfl (by decide) rfl rfl

/-- C9: an article whose image payload is absent/null or the empty string
(both falsy in `if row.get("image_data"):`) gets the "no image available"
info box without `decode_image` ever being invoked; the decode-failure
warning (`"Image not available"`) is reachable only for a non-empty payload,
and then the decoder was invoked. -/
theorem C9_decoder_only_on_truthy_payload (b64decode : String → Except String (List Nat))
    (imageOpen : List Nat → Except String Nat) (payload : Option String) :
    ((payload = none ∨ payload = some "") →
        renderImage b64decode imageOpen payload =
          { outcome := .noImageInfo, decoderInvoked := false, decodeErrorReported := false }) ∧
    ((renderImage b64decode imageOpen payload).outcome = ImageOutcome.decodeFailedWarning →
        ∃ s, payload = some s ∧ s ≠ "" ∧
          (renderImage b64decode imageOpen payload).decoderInvoked = true) := by
  constructor
  · rintro (rfl | rfl) <;> simp [renderImage]
  · intro hw
    rcases payload with _ | s
    · simp [renderImage] at hw
    · by_cases hs : s = ""
      · subst hs; simp [renderImage] at hw
      · refine ⟨s, rfl, hs, ?_⟩
        cases hd : (decode_image b64decode imageOpen (some s)).image <;>
          simp [renderImage, hs, hd]

/-- Witness for C9: a null payload and an empty payload both render the info
box with the decoder never invoked. -/
theorem C9_decoder_only_on_truthy_payload_witness :
    renderImage (fun _ => Except.error "bad") (fun _ => Except.error "bad") none =
      { outcome := .noImageInfo, decoderInvoked := false, decodeErrorReported := false } ∧
    renderImage (fun _ => Except.error "bad") (fun _ => Except.error "bad") (some "") =
      { outcome := .noImageInfo, decoderInvoked := false, decodeErrorReported := false } :=
  ⟨(C9_decoder_only_on_truthy_payload (fun _ => Except.error "bad")
      (fun _ => Except.error "bad") none).1 (Or.inl rfl),
   (C9_decoder_only_on_truthy_payload (fun _ => Except.error "bad")
      (fun _ => Except.error "bad") (some "")).1 (Or.inr rfl)⟩

/-- C10 counterexample: a connection-level fetch failure and a legitimately
empty store both halt the page, but they are not observationally
indistinguishable at the user-facing surface — the failure case carries the
store-level error report (`st.error` in `get_connection`) that the
empty-store case does not. -/
theorem C10_counterexample :
    runPage (fun _ => StoreOutcome.connFail) .english "" "All" ≠
      runPage (fun _ => StoreOutcome.ok []) .english "" "All" ∧
    (runPage (fun _ => StoreOutcome.connFail) .english "" "All").fetchErrorReported = true ∧
    (runPage (fun _ => StoreOutcome.ok []) .english "" "All").fetchErrorReported = false := by
  refine ⟨?_, rfl, rfl⟩
  decide

/-- C10 (amended): whenever `fetch_news` yields an empty row set — because
the connection failed, the retries were exhausted, or the store genuinely
holds zero articles — the page shows the load-failure message and stops
before the search box, tag dropdown, or any filtering/rendering; the halted
page is identical in all cases except for the store-level error report
already emitted during fetching, which genuine failures carry and a
legitimately empty store does not. -/
theorem C10_empty_rows_halt_amended (store : Nat → StoreOutcome) (lang : Lang)
    (q tag : String) (h : (fetch_news store).rows = []) :
    runPage store lang q tag =
      { fetchErrorReported := (fetch_news store).errorReported, loadErrorShown := true,
        searchUIShown := false, filtered := none, groups := none } ∧
    { runPage store lang q tag with fetchErrorReported := false } =
      { runPage (fun _ => StoreOutcome.ok []) lang q tag with fetchErrorReported := false } := by
  constructor
  · simp [runPage, h]
  · have hre : runPage (fun _ => StoreOutcome.ok []) lang q tag =
        { fetchErrorReported := false, loadErrorShown := true, searchUIShown := false,
          filtered := none, groups := none } := rfl
    rw [hre]
    simp [runPage, h]

/-- Witness for C10 (amended): with the store raising on every query the
page halts with the load-failure message, no search UI and no rendering. -/
theorem C10_empty_rows_halt_amended_witness :
    runPage (fun _ => StoreOutcome.queryFail) .english "" "All" =
      { fetchErrorReported := true, loadErrorShown := true, searchUIShown := false,
        filtered := none, groups := none } :=
  (C10_empty_rows_halt_amended (fun _ => StoreOutcome.queryFail) .english "" "All" rfl).1

end News
